import Mathlib

/-!
Verification of the NYBORG admin-dashboard core against its specification.

The repository ships a requirements document, a technical implementation
guide (SQL schema and TypeScript interface declarations in
src/technical_implementation_guide.md) and two small JavaScript files
(src/ai-service.js, src/scrips.js).  The analytics core itself
(MetricsAggregator, RiskClassifier, ReportGenerator, CacheLayer,
UpdateBroadcaster) is declared but not implemented in the repository, so
those components are modelled from the specification, as marked on each
definition.  The SQL schema and src/ai-service.js are translated directly.
-/

namespace Dashboard

/-- Role of a user, from the `users` table ENUM in the SQL schema. -/
inductive Role
  | admin
  | instructor
  | student
deriving DecidableEq, Repr

/-- A user record, from the `users` table of the SQL schema (analytics-relevant
columns; timestamps are abstract `Nat` instants). -/
structure User where
  id : Nat
  role : Role
  lastLoginAt : Option Nat
  isActive : Bool
deriving DecidableEq, Repr

/-- Course status, from the `courses` table ENUM. -/
inductive CourseStatus
  | draft
  | active
  | archived
deriving DecidableEq, Repr

/-- A course record, from the `courses` table of the SQL schema. -/
structure Course where
  id : Nat
  instructorId : Nat
  status : CourseStatus
  price : ℚ
deriving DecidableEq, Repr

/-- Enrollment status, from the `enrollments` table ENUM. -/
inductive EnrollmentStatus
  | active
  | completed
  | dropped
deriving DecidableEq, Repr

/-- An enrollment record, from the `enrollments` table of the SQL schema. -/
structure Enrollment where
  id : Nat
  userId : Nat
  courseId : Nat
  enrolledAt : Nat
  completedAt : Option Nat
  progressPercentage : Nat
  status : EnrollmentStatus
deriving DecidableEq, Repr

/-- A course module record, from the `modules` table of the SQL schema. -/
structure CourseModule where
  id : Nat
  courseId : Nat
  orderIndex : Nat
  estimatedDurationMinutes : Nat
deriving DecidableEq, Repr

/-- A module-progress record, from the `user_module_progress` table. -/
structure ModuleProgress where
  id : Nat
  userId : Nat
  moduleId : Nat
  startedAt : Nat
  completedAt : Option Nat
  timeSpentSeconds : Nat
deriving DecidableEq, Repr

/-- Target of a feedback row: the schema has two tables, `course_feedback`
keyed by course id and `module_feedback` keyed by module id. -/
inductive FeedbackTarget
  | course (courseId : Nat)
  | module (moduleId : Nat)
deriving DecidableEq, Repr

/-- A feedback record, merging the `course_feedback` and `module_feedback`
tables of the SQL schema (`rating INTEGER CHECK (rating >= 1 AND rating <= 5)`). -/
structure Feedback where
  id : Nat
  userId : Nat
  target : FeedbackTarget
  rating : Nat
  comment : String
  createdAt : Nat
deriving DecidableEq, Repr

/-- The entity store consumed by the core: one list per table of the schema. -/
structure Store where
  users : List User
  courses : List Course
  enrollments : List Enrollment
  modules : List CourseModule
  progresses : List ModuleProgress
  feedbacks : List Feedback
deriving DecidableEq, Repr

/-- An aggregation scope: the whole platform or a single course. -/
inductive Scope
  | global
  | course (courseId : Nat)
deriving DecidableEq, Repr

/-- Whether an enrollment belongs to a scope. -/
def enrollmentInScope (scope : Scope) (e : Enrollment) : Bool :=
  match scope with
  | .global => true
  | .course c => e.courseId == c

/-- Whether a feedback row belongs to a scope: course feedback belongs to its
course, module feedback to the course owning the module. -/
def feedbackInScope (scope : Scope) (mods : List CourseModule) (f : Feedback) : Bool :=
  match scope, f.target with
  | .global, _ => true
  | .course c, .course c2 => c2 == c
  | .course c, .module m => mods.any fun md => md.id == m && md.courseId == c

/-- Whether a module-progress row belongs to a scope. -/
def progressInScope (scope : Scope) (mods : List CourseModule) (p : ModuleProgress) : Bool :=
  match scope with
  | .global => true
  | .course c => mods.any fun md => md.id == p.moduleId && md.courseId == c

/-- The enrollments of a store that fall inside a scope. -/
def enrollmentsInScope (scope : Scope) (st : Store) : List Enrollment :=
  st.enrollments.filter (enrollmentInScope scope)

/-- The feedback rows of a store that fall inside a scope. -/
def feedbacksInScope (scope : Scope) (st : Store) : List Feedback :=
  st.feedbacks.filter (feedbackInScope scope st.modules)

/-- A computed metrics snapshot, shape from the `DashboardOverview` and
`CourseAnalytics` interfaces of the implementation guide; ratio fields are
`Option` so that an empty scope yields an explicit null, never a coerced 0. -/
structure Snapshot where
  totalCourses : Nat
  totalStudents : Nat
  activeEnrollments : Nat
  completionRate : Option ℚ
  averageSatisfaction : Option ℚ
  averageTimeSpent : Option ℚ
deriving DecidableEq, Repr

namespace MetricsAggregator

/-- Modelled from the spec: the MetricsAggregator implementation is absent from
the repository (src/technical_implementation_guide.md only declares its output
interfaces), so this follows §4.1 of the spec: completed / total enrollments in
scope, `none` when the scope has zero enrollments. -/
def completionRate (scope : Scope) (st : Store) : Option ℚ :=
  let es := enrollmentsInScope scope st
  if es.length = 0 then none
  else some ((es.countP fun e => e.status == EnrollmentStatus.completed : ℚ) / (es.length : ℚ))

/-- Modelled from the spec: arithmetic mean of rating values over the Feedback
rows in scope, `none` when the scope has zero feedback rows (§4.1). -/
def averageSatisfaction (scope : Scope) (st : Store) : Option ℚ :=
  let fs := feedbacksInScope scope st
  if fs.length = 0 then none
  else some (((fs.map fun f => (f.rating : ℚ)).sum) / (fs.length : ℚ))

/-- Modelled from the spec: distinct users holding at least one non-dropped
enrollment in scope (§4.1). -/
def totalStudents (scope : Scope) (st : Store) : Nat :=
  (((enrollmentsInScope scope st).filter fun e =>
    !(e.status == EnrollmentStatus.dropped)).map fun e => e.userId).dedup.length

/-- Modelled from the spec: mean over participants with at least one progress
row in scope of their total time spent (§4.1), `none` when no such participant. -/
def averageTimeSpent (scope : Scope) (st : Store) : Option ℚ :=
  let ps := st.progresses.filter (progressInScope scope st.modules)
  let participants := (ps.map fun p => p.userId).dedup
  if participants.length = 0 then none
  else some ((participants.map fun u =>
    (((ps.filter fun p => p.userId == u).map fun p => (p.timeSpentSeconds : ℚ)).sum)).sum
      / (participants.length : ℚ))

/-- Modelled from the spec: number of courses visible in the scope. -/
def totalCourses (scope : Scope) (st : Store) : Nat :=
  match scope with
  | .global => st.courses.length
  | .course c => (st.courses.filter fun co => co.id == c).length

/-- Modelled from the spec: the MetricsAggregator is a pure function from a
scope and the entity records to a snapshot (§4.1). -/
def aggregate (scope : Scope) (st : Store) : Snapshot where
  totalCourses := totalCourses scope st
  totalStudents := totalStudents scope st
  activeEnrollments :=
    (enrollmentsInScope scope st).countP fun e => e.status == EnrollmentStatus.active
  completionRate := completionRate scope st
  averageSatisfaction := averageSatisfaction scope st
  averageTimeSpent := averageTimeSpent scope st

end MetricsAggregator

/-- A store with no records at all. -/
def emptyStore : Store where
  users := []
  courses := []
  enrollments := []
  modules := []
  progresses := []
  feedbacks := []

/-- A store holding one course (id 7) with ten enrollments: six completed and
four active, the test case of the spec. -/
def tenEnrollmentStore : Store where
  users := []
  courses := [⟨7, 1, CourseStatus.active, 0⟩]
  enrollments :=
    [⟨0, 100, 7, 0, some 10, 100, EnrollmentStatus.completed⟩,
     ⟨1, 101, 7, 0, some 10, 100, EnrollmentStatus.completed⟩,
     ⟨2, 102, 7, 0, some 10, 100, EnrollmentStatus.completed⟩,
     ⟨3, 103, 7, 0, some 10, 100, EnrollmentStatus.completed⟩,
     ⟨4, 104, 7, 0, some 10, 100, EnrollmentStatus.completed⟩,
     ⟨5, 105, 7, 0, some 10, 100, EnrollmentStatus.completed⟩,
     ⟨6, 106, 7, 0, none, 50, EnrollmentStatus.active⟩,
     ⟨7, 107, 7, 0, none, 50, EnrollmentStatus.active⟩,
     ⟨8, 108, 7, 0, none, 50, EnrollmentStatus.active⟩,
     ⟨9, 109, 7, 0, none, 50, EnrollmentStatus.active⟩]
  modules := []
  progresses := []
  feedbacks := []

/-- A store holding one course (id 7) with three feedback rows rated 5, 4
and 3, the test case of the spec. -/
def threeFeedbackStore : Store where
  users := []
  courses := [⟨7, 1, CourseStatus.active, 0⟩]
  enrollments := []
  modules := []
  progresses := []
  feedbacks :=
    [⟨0, 100, FeedbackTarget.course 7, 5, "", 0⟩,
     ⟨1, 101, FeedbackTarget.course 7, 4, "", 0⟩,
     ⟨2, 102, FeedbackTarget.course 7, 3, "", 0⟩]

/-- C1: for every scope the snapshot field completionRate is null (never 0)
when the scope has zero enrollments, and otherwise equals the number of
completed enrollments in scope divided by the total number of enrollments in
scope; in particular a course with enrollments [completed times 6, active
times 4] has completionRate = 0.6. -/
theorem completionRate_null_or_ratio (scope : Scope) (st : Store) :
    (enrollmentsInScope scope st = [] →
      (MetricsAggregator.aggregate scope st).completionRate = none) ∧
    (enrollmentsInScope scope st ≠ [] →
      (MetricsAggregator.aggregate scope st).completionRate =
        some (((st.enrollments.filter fun e =>
            enrollmentInScope scope e && e.status == EnrollmentStatus.completed).length : ℚ) /
          ((st.enrollments.filter (enrollmentInScope scope)).length : ℚ))) ∧
    (MetricsAggregator.aggregate (Scope.course 7) tenEnrollmentStore).completionRate =
      some (0.6 : ℚ) := by
  have hnum : (st.enrollments.filter (enrollmentInScope scope)).countP
        (fun e => e.status == EnrollmentStatus.completed) =
      (st.enrollments.filter fun e =>
        enrollmentInScope scope e && e.status == EnrollmentStatus.completed).length := by
    rw [List.countP_filter, ← List.countP_eq_length_filter]
    exact List.countP_congr fun a _ => by simp [Bool.and_comm]
  refine ⟨fun h => ?_, fun h => ?_, ?_⟩
  · simp [MetricsAggregator.aggregate, MetricsAggregator.completionRate, h]
  · have hlen : ¬ (st.enrollments.filter (enrollmentInScope scope)).length = 0 := by
      simpa [enrollmentsInScope, List.length_eq_zero] using h
    simp only [MetricsAggregator.aggregate, MetricsAggregator.completionRate,
      enrollmentsInScope, if_neg hlen, hnum]
  · have hv : (MetricsAggregator.aggregate (Scope.course 7) tenEnrollmentStore).completionRate =
        some ((6 : ℚ) / 10) := by
      simp +decide [MetricsAggregator.aggregate, MetricsAggregator.completionRate,
        enrollmentsInScope, enrollmentInScope, tenEnrollmentStore]
    rw [hv]
    norm_num

/-- Closed instances of the completion-rate theorem: the empty store has a
null completionRate, and the ten-enrollment course evaluates the stated
ratio. -/
theorem completionRate_null_or_ratio_check :
    (MetricsAggregator.aggregate Scope.global emptyStore).completionRate = none ∧
    (MetricsAggregator.aggregate (Scope.course 7) tenEnrollmentStore).completionRate =
      some (((tenEnrollmentStore.enrollments.filter fun e =>
          enrollmentInScope (Scope.course 7) e && e.status == EnrollmentStatus.completed).length : ℚ) /
        ((tenEnrollmentStore.enrollments.filter (enrollmentInScope (Scope.course 7))).length : ℚ)) :=
  ⟨(completionRate_null_or_ratio Scope.global emptyStore).1 rfl,
   (completionRate_null_or_ratio (Scope.course 7) tenEnrollmentStore).2.1 (by decide)⟩

/-- C2: for every scope the snapshot field averageSatisfaction is null (never
0) when the scope has zero feedback rows, and otherwise equals the arithmetic
mean of the rating values of the feedback rows in scope; in particular
feedback ratings [5, 4, 3] yield averageSatisfaction = 4.0. -/
theorem averageSatisfaction_null_or_mean (scope : Scope) (st : Store) :
    (feedbacksInScope scope st = [] →
      (MetricsAggregator.aggregate scope st).averageSatisfaction = none) ∧
    (feedbacksInScope scope st ≠ [] →
      (MetricsAggregator.aggregate scope st).averageSatisfaction =
        some ((((st.feedbacks.filter (feedbackInScope scope st.modules)).map
            fun f => (f.rating : ℚ)).sum) /
          ((st.feedbacks.countP (feedbackInScope scope st.modules)) : ℚ))) ∧
    (MetricsAggregator.aggregate (Scope.course 7) threeFeedbackStore).averageSatisfaction =
      some (4 : ℚ) := by
  refine ⟨fun h => ?_, fun h => ?_, ?_⟩
  · simp [MetricsAggregator.aggregate, MetricsAggregator.averageSatisfaction, h]
  · have hlen : ¬ (st.feedbacks.filter (feedbackInScope scope st.modules)).length = 0 := by
      simpa [feedbacksInScope, List.length_eq_zero] using h
    simp only [MetricsAggregator.aggregate, MetricsAggregator.averageSatisfaction,
      feedbacksInScope, if_neg hlen, List.countP_eq_length_filter]
  · have hv : (MetricsAggregator.aggregate (Scope.course 7) threeFeedbackStore).averageSatisfaction =
        some (((5 : ℚ) + (4 + (3 + 0))) / 3) := by
      simp +decide [MetricsAggregator.aggregate, MetricsAggregator.averageSatisfaction,
        feedbacksInScope, feedbackInScope, threeFeedbackStore]
    rw [hv]
    norm_num

/-- Closed instances of the satisfaction theorem: the empty store has a null
averageSatisfaction, and the three-feedback course evaluates the stated
mean. -/
theorem averageSatisfaction_null_or_mean_check :
    (MetricsAggregator.aggregate Scope.global emptyStore).averageSatisfaction = none ∧
    (MetricsAggregator.aggregate (Scope.course 7) threeFeedbackStore).averageSatisfaction =
      some ((((threeFeedbackStore.feedbacks.filter
          (feedbackInScope (Scope.course 7) threeFeedbackStore.modules)).map
            fun f => (f.rating : ℚ)).sum) /
        ((threeFeedbackStore.feedbacks.countP
          (feedbackInScope (Scope.course 7) threeFeedbackStore.modules)) : ℚ)) :=
  ⟨(averageSatisfaction_null_or_mean Scope.global emptyStore).1 rfl,
   (averageSatisfaction_null_or_mean (Scope.course 7) threeFeedbackStore).2.1 (by decide)⟩

namespace CacheLayer

/-- Modelled from the spec: the CacheLayer implementation is absent from the
repository (src/technical_implementation_guide.md only sketches a
`getCachedDashboardData` usage of redis), so the single-flight protocol of
§4.4 is modelled as a transition system for one scope: the cached snapshot if
any, the list of callers awaiting the in-flight computation (`none` when no
computation is in flight), how many aggregator invocations were started, and
the (caller, snapshot) results handed back so far. -/
structure SFState where
  cached : Option Snapshot
  inFlight : Option (List Nat)
  computeCount : Nat
  delivered : List (Nat × Snapshot)
deriving DecidableEq, Repr

/-- Modelled from the spec: a caller invokes `get`.  A cached snapshot is
returned at once; otherwise the caller joins the in-flight computation if one
exists, and only if none exists is a new aggregator invocation started. -/
def arrive (c : Nat) (st : SFState) : SFState :=
  match st.cached with
  | some s => { st with delivered := (c, s) :: st.delivered }
  | none =>
    match st.inFlight with
    | some ws => { st with inFlight := some (c :: ws) }
    | none => { st with inFlight := some [c], computeCount := st.computeCount + 1 }

/-- Modelled from the spec: the in-flight computation completes with snapshot
`s`; the snapshot is cached and every awaiting caller receives it. -/
def complete (s : Snapshot) (st : SFState) : SFState :=
  match st.inFlight with
  | some ws =>
    { cached := some s
      inFlight := none
      computeCount := st.computeCount
      delivered := (ws.map fun c => (c, s)) ++ st.delivered }
  | none => st

/-- A batch of concurrent callers arriving one after another, none of them
separated by a completion. -/
def arriveAll (cs : List Nat) (st : SFState) : SFState :=
  cs.foldl (fun st c => arrive c st) st

/-- The state before any call: no cached entry, no computation in flight. -/
def initState : SFState := ⟨none, none, 0, []⟩

/-- While a computation is in flight and nothing is cached, arriving callers
only join the waiting list; no further computation is started. -/
theorem arriveAll_join (cs : List Nat) (ws : List Nat) (k : Nat)
    (d : List (Nat × Snapshot)) :
    arriveAll cs ⟨none, some ws, k, d⟩ = ⟨none, some (cs.reverse ++ ws), k, d⟩ := by
  induction cs generalizing ws with
  | nil => simp [arriveAll]
  | cons c cs ih =>
    have hstep : arriveAll (c :: cs) ⟨none, some ws, k, d⟩ =
        arriveAll cs ⟨none, some (c :: ws), k, d⟩ := rfl
    rw [hstep, ih]
    simp

end CacheLayer

/-- C3: starting from a state with no cached entry, any nonempty batch of
concurrent `get` callers triggers exactly one MetricsAggregator invocation,
and when it completes every caller of the batch has received the identical
resulting snapshot (and nothing but that snapshot was delivered). -/
theorem cache_single_flight (cs : List Nat) (scope : Scope) (store : Store)
    (h : cs ≠ []) :
    (CacheLayer.arriveAll cs CacheLayer.initState).computeCount = 1 ∧
    (∀ c ∈ cs, (c, MetricsAggregator.aggregate scope store) ∈
      (CacheLayer.complete (MetricsAggregator.aggregate scope store)
        (CacheLayer.arriveAll cs CacheLayer.initState)).delivered) ∧
    (∀ p ∈ (CacheLayer.complete (MetricsAggregator.aggregate scope store)
        (CacheLayer.arriveAll cs CacheLayer.initState)).delivered,
      p.2 = MetricsAggregator.aggregate scope store) := by
  match cs, h with
  | c :: cs, _ =>
    have h1 : CacheLayer.arriveAll (c :: cs) CacheLayer.initState =
        ⟨none, some (cs.reverse ++ [c]), 1, []⟩ := by
      have hstep : CacheLayer.arriveAll (c :: cs) CacheLayer.initState =
          CacheLayer.arriveAll cs ⟨none, some [c], 1, []⟩ := rfl
      rw [hstep, CacheLayer.arriveAll_join]
    refine ⟨by rw [h1], ?_, ?_⟩
    · intro c2 hc2
      rw [h1]
      simp only [CacheLayer.complete, List.append_nil, List.mem_map, List.mem_append,
        List.mem_reverse, List.mem_singleton]
      exact ⟨c2, by simpa [or_comm] using hc2, rfl⟩
    · intro p hp
      rw [h1] at hp
      simp only [CacheLayer.complete, List.append_nil, List.mem_map] at hp
      obtain ⟨a, _, rfl⟩ := hp
      rfl

/-- Closed instance of the single-flight theorem for three concurrent callers
over the empty store. -/
theorem cache_single_flight_check :
    (CacheLayer.arriveAll [1, 2, 3] CacheLayer.initState).computeCount = 1 ∧
    (∀ c ∈ [1, 2, 3], (c, MetricsAggregator.aggregate Scope.global emptyStore) ∈
      (CacheLayer.complete (MetricsAggregator.aggregate Scope.global emptyStore)
        (CacheLayer.arriveAll [1, 2, 3] CacheLayer.initState)).delivered) ∧
    (∀ p ∈ (CacheLayer.complete (MetricsAggregator.aggregate Scope.global emptyStore)
        (CacheLayer.arriveAll [1, 2, 3] CacheLayer.initState)).delivered,
      p.2 = MetricsAggregator.aggregate Scope.global emptyStore) :=
  cache_single_flight [1, 2, 3] Scope.global emptyStore (by decide)

namespace CacheLayer

/-- Modelled from the spec: a CacheEntry (§3 core-owned entities) holds the
computed snapshot, the instant it was computed and the instant it expires. -/
structure CacheEntry where
  value : Snapshot
  computedAt : Nat
  expiresAt : Nat
deriving DecidableEq, Repr

/-- The TTL of a cache entry: the implementation guide caches dashboard data
with `redis.setex(cacheKey, 300, ...)`, i.e. 300 time units (§4.4). -/
def ttl : Nat := 300

/-- The cache content: at most one entry per scope, as an association list. -/
structure CacheState where
  entries : List (Scope × CacheEntry)
deriving DecidableEq, Repr

/-- Look up the entry stored for a scope. -/
def findEntry (sc : Scope) (cs : CacheState) : Option CacheEntry :=
  (cs.entries.find? fun p => p.1 == sc).map fun p => p.2

/-- Modelled from the spec: `invalidate(scope)` removes the entry for the
scope immediately, regardless of its remaining TTL (§4.4). -/
def invalidate (sc : Scope) (cs : CacheState) : CacheState :=
  ⟨cs.entries.filter fun p => !(p.1 == sc)⟩

/-- Modelled from the spec: `get(scope)` returns the cached entry when one is
present and unexpired, and otherwise recomputes through the MetricsAggregator
at the current instant, storing the fresh entry with a full TTL (§4.4). -/
def get (sc : Scope) (now : Nat) (store : Store) (cs : CacheState) :
    CacheEntry × CacheState :=
  match findEntry sc cs with
  | some e =>
    if now < e.expiresAt then (e, cs)
    else
      let e2 : CacheEntry := ⟨MetricsAggregator.aggregate sc store, now, now + ttl⟩
      (e2, ⟨(sc, e2) :: (invalidate sc cs).entries⟩)
  | none =>
    let e2 : CacheEntry := ⟨MetricsAggregator.aggregate sc store, now, now + ttl⟩
    (e2, ⟨(sc, e2) :: (invalidate sc cs).entries⟩)

/-- Invalidation leaves no entry behind for the invalidated scope. -/
theorem findEntry_invalidate (sc : Scope) (cs : CacheState) :
    findEntry sc (invalidate sc cs) = none := by
  have h : (invalidate sc cs).entries.find? (fun p => p.1 == sc) = none := by
    rw [List.find?_eq_none]
    intro x hx
    have hmem := (List.mem_filter.mp hx).2
    simp at hmem
    simp [hmem]
  simp [findEntry, h]

end CacheLayer

/-- C4: after a successful `invalidate(scope)` at time t, the next
`get(scope)` at any instant now ≥ t never returns the pre-invalidation
snapshot, whatever remaining TTL that entry had: it performs a fresh
aggregator computation whose result is computed at `now`, hence no earlier
than the invalidation. -/
theorem get_after_invalidate_fresh (sc : Scope) (t now : Nat) (store : Store)
    (cs : CacheLayer.CacheState) (h : t ≤ now) :
    (CacheLayer.get sc now store (CacheLayer.invalidate sc cs)).1.value =
      MetricsAggregator.aggregate sc store ∧
    (CacheLayer.get sc now store (CacheLayer.invalidate sc cs)).1.computedAt = now ∧
    t ≤ (CacheLayer.get sc now store (CacheLayer.invalidate sc cs)).1.computedAt := by
  have hf : CacheLayer.findEntry sc (CacheLayer.invalidate sc cs) = none :=
    CacheLayer.findEntry_invalidate sc cs
  refine ⟨?_, ?_, ?_⟩ <;> simp [CacheLayer.get, hf, h]

/-- Closed instance of the invalidation-freshness theorem: a cache whose
global entry still has a long remaining TTL is nevertheless recomputed by the
get that follows an invalidation. -/
theorem get_after_invalidate_fresh_check :
    (CacheLayer.get Scope.global 5 emptyStore
      (CacheLayer.invalidate Scope.global
        ⟨[(Scope.global, ⟨MetricsAggregator.aggregate (Scope.course 7) tenEnrollmentStore,
          0, 1000⟩)]⟩)).1.value = MetricsAggregator.aggregate Scope.global emptyStore ∧
    (CacheLayer.get Scope.global 5 emptyStore
      (CacheLayer.invalidate Scope.global
        ⟨[(Scope.global, ⟨MetricsAggregator.aggregate (Scope.course 7) tenEnrollmentStore,
          0, 1000⟩)]⟩)).1.computedAt = 5 ∧
    0 ≤ (CacheLayer.get Scope.global 5 emptyStore
      (CacheLayer.invalidate Scope.global
        ⟨[(Scope.global, ⟨MetricsAggregator.aggregate (Scope.course 7) tenEnrollmentStore,
          0, 1000⟩)]⟩)).1.computedAt :=
  get_after_invalidate_fresh Scope.global 0 5 emptyStore
    ⟨[(Scope.global, ⟨MetricsAggregator.aggregate (Scope.course 7) tenEnrollmentStore,
      0, 1000⟩)]⟩ (Nat.zero_le 5)

/-- Report type, from the `ReportRequest` interface of the implementation
guide. -/
inductive ReportType
  | course_performance
  | user_engagement
  | satisfaction
  | financial
deriving DecidableEq, Repr

/-- Output format, from the `ReportRequest` interface. -/
inductive ReportFormat
  | json
  | excel
  | pdf
deriving DecidableEq, Repr

/-- Date range of a report request, from the `ReportRequest` interface. -/
structure DateRange where
  start : Nat
  «end» : Nat
deriving DecidableEq, Repr

/-- Filter id lists of a report request, from the `ReportRequest` interface
(`courseIds?`, `userIds?`, `status?`). -/
structure ReportFilters where
  courseIds : List Nat
  userIds : List Nat
  statusValues : List EnrollmentStatus
deriving DecidableEq, Repr

/-- A report request, from the `ReportRequest` interface of the
implementation guide. -/
structure ReportRequest where
  type : ReportType
  dateRange : DateRange
  filters : ReportFilters
  format : ReportFormat
deriving DecidableEq, Repr

/-- Report lifecycle status (§3 core-owned entities). -/
inductive ReportStatus
  | pending
  | generating
  | ready
  | failed
deriving DecidableEq, Repr

/-- A Report record (§3 core-owned entities): the request, its status, the
payload once ready, the failure cause once failed, and its lifetime. -/
structure Report where
  id : Nat
  request : ReportRequest
  status : ReportStatus
  payload : Option String
  failureCause : Option String
  createdAt : Nat
  expiresAt : Nat
deriving DecidableEq, Repr

/-- Validation failures of a report request (§7 error taxonomy). -/
inductive ValidationError
  | badDateRange
  | unknownCourseId (id : Nat)
  | unknownUserId (id : Nat)
deriving DecidableEq, Repr

/-- The store of Report records owned by the ReportGenerator. -/
structure ReportStore where
  reports : List Report
  nextId : Nat
deriving DecidableEq, Repr

namespace ReportGenerator

/-- Modelled from the spec: synchronous validation of a report request
(§4.3): the range must satisfy start ≤ end and every filter id must reference
an entity existing in the store. -/
def validate (st : Store) (req : ReportRequest) : Option ValidationError :=
  if req.dateRange.start > req.dateRange.«end» then some ValidationError.badDateRange
  else
    match req.filters.courseIds.find? fun cid => !(st.courses.any fun co => co.id == cid) with
    | some cid => some (ValidationError.unknownCourseId cid)
    | none =>
      match req.filters.userIds.find? fun uid => !(st.users.any fun u => u.id == uid) with
      | some uid => some (ValidationError.unknownUserId uid)
      | none => none

/-- Modelled from the spec: a report request is validated synchronously; on
failure it is rejected with a ValidationError and no Report record of any
kind is created; on success a Report in `pending` state is created and its id
returned to the caller (§4.3). -/
def requestReport (st : Store) (now : Nat) (rs : ReportStore) (req : ReportRequest) :
    Except ValidationError Nat × ReportStore :=
  match validate st req with
  | some e => (Except.error e, rs)
  | none =>
    (Except.ok rs.nextId,
      ⟨⟨rs.nextId, req, ReportStatus.pending, none, none, now, now + 3600⟩ :: rs.reports,
        rs.nextId + 1⟩)

end ReportGenerator

/-- C5: report requests are validated synchronously before acceptance: a
request with start > end, or with a filter id referencing no existing entity,
fails with a ValidationError and leaves the report store untouched (no
Report record is created); a request passing validation creates exactly one
new Report, in `pending` state with a null payload, and returns its id. -/
theorem report_request_validation (st : Store) (now : Nat) (rs : ReportStore)
    (req : ReportRequest) :
    (req.dateRange.start > req.dateRange.«end» →
      (ReportGenerator.requestReport st now rs req).1 =
        Except.error ValidationError.badDateRange ∧
      (ReportGenerator.requestReport st now rs req).2 = rs) ∧
    (ReportGenerator.validate st req ≠ none →
      (∃ e, (ReportGenerator.requestReport st now rs req).1 = Except.error e) ∧
      (ReportGenerator.requestReport st now rs req).2 = rs) ∧
    (ReportGenerator.validate st req = none →
      (ReportGenerator.requestReport st now rs req).1 = Except.ok rs.nextId ∧
      (ReportGenerator.requestReport st now rs req).2.reports =
        ⟨rs.nextId, req, ReportStatus.pending, none, none, now, now + 3600⟩ :: rs.reports) := by
  refine ⟨fun h => ?_, fun h => ?_, fun h => ?_⟩
  · have hv : ReportGenerator.validate st req = some ValidationError.badDateRange := by
      simp [ReportGenerator.validate, h]
    constructor <;> simp [ReportGenerator.requestReport, hv]
  · match hv : ReportGenerator.validate st req with
    | some e => exact ⟨⟨e, by simp [ReportGenerator.requestReport, hv]⟩,
        by simp [ReportGenerator.requestReport, hv]⟩
    | none => exact absurd hv h
  · constructor <;> simp [ReportGenerator.requestReport, h]

/-- Closed instances of the report-validation theorem: an inverted date range
is rejected without creating a Report, and a trivial valid request over the
empty store is accepted as pending report 0. -/
theorem report_request_validation_check :
    ((ReportGenerator.requestReport emptyStore 0 ⟨[], 0⟩
        ⟨ReportType.financial, ⟨9, 3⟩, ⟨[], [], []⟩, ReportFormat.json⟩).1 =
      Except.error ValidationError.badDateRange ∧
      (ReportGenerator.requestReport emptyStore 0 ⟨[], 0⟩
        ⟨ReportType.financial, ⟨9, 3⟩, ⟨[], [], []⟩, ReportFormat.json⟩).2 = ⟨[], 0⟩) ∧
    ((ReportGenerator.requestReport emptyStore 0 ⟨[], 0⟩
        ⟨ReportType.financial, ⟨3, 9⟩, ⟨[], [], []⟩, ReportFormat.json⟩).1 =
      Except.ok 0 ∧
      (ReportGenerator.requestReport emptyStore 0 ⟨[], 0⟩
        ⟨ReportType.financial, ⟨3, 9⟩, ⟨[], [], []⟩, ReportFormat.json⟩).2.reports =
        [⟨0, ⟨ReportType.financial, ⟨3, 9⟩, ⟨[], [], []⟩, ReportFormat.json⟩,
          ReportStatus.pending, none, none, 0, 3600⟩]) :=
  ⟨(report_request_validation emptyStore 0 ⟨[], 0⟩
      ⟨ReportType.financial, ⟨9, 3⟩, ⟨[], [], []⟩, ReportFormat.json⟩).1 (by decide),
   (report_request_validation emptyStore 0 ⟨[], 0⟩
      ⟨ReportType.financial, ⟨3, 9⟩, ⟨[], [], []⟩, ReportFormat.json⟩).2.2 (by decide)⟩

namespace ReportGenerator

/-- Modelled from the spec: the legal status transitions of report generation
(§4.3): `pending` to `generating` when the task starts, `generating` to
`ready` or `failed` when it finishes. -/
inductive ReportStep : ReportStatus → ReportStatus → Prop
  | start : ReportStep ReportStatus.pending ReportStatus.generating
  | finishOk : ReportStep ReportStatus.generating ReportStatus.ready
  | finishErr : ReportStep ReportStatus.generating ReportStatus.failed

/-- Modelled from the spec: the generating task picks up a pending report and
marks it generating; it leaves a report in any other state alone. -/
def beginGeneration (r : Report) : Report :=
  if r.status = ReportStatus.pending then { r with status := ReportStatus.generating }
  else r

/-- Modelled from the spec: the generating task finishes a generating report,
storing a payload on success and a human-readable cause on failure; it leaves
a report in any other state alone. -/
def completeGeneration (r : Report) (res : Except String String) : Report :=
  if r.status = ReportStatus.generating then
    match res with
    | Except.ok p => { r with status := ReportStatus.ready, payload := some p }
    | Except.error c => { r with status := ReportStatus.failed, failureCause := some c }
  else r

end ReportGenerator

/-- C6: the report status only moves along pending to generating to ready or
failed: both generating-task operations either leave a report unchanged or
perform a legal step; no step re-enters pending; no step leaves a terminal
state; every execution from a terminal state stays there; and every execution
from pending either stays at pending or passes through generating. -/
theorem report_status_lifecycle :
    (∀ r, ReportGenerator.beginGeneration r = r ∨
      ReportGenerator.ReportStep r.status (ReportGenerator.beginGeneration r).status) ∧
    (∀ r res, ReportGenerator.completeGeneration r res = r ∨
      ReportGenerator.ReportStep r.status (ReportGenerator.completeGeneration r res).status) ∧
    (∀ s1 s2, ReportGenerator.ReportStep s1 s2 → s2 ≠ ReportStatus.pending) ∧
    (∀ s1 s2, ReportGenerator.ReportStep s1 s2 →
      s1 ≠ ReportStatus.ready ∧ s1 ≠ ReportStatus.failed) ∧
    (∀ s, Relation.ReflTransGen ReportGenerator.ReportStep ReportStatus.ready s →
      s = ReportStatus.ready) ∧
    (∀ s, Relation.ReflTransGen ReportGenerator.ReportStep ReportStatus.failed s →
      s = ReportStatus.failed) ∧
    (∀ s, Relation.ReflTransGen ReportGenerator.ReportStep ReportStatus.pending s →
      s = ReportStatus.pending ∨
      Relation.ReflTransGen ReportGenerator.ReportStep ReportStatus.generating s) := by
  refine ⟨?_, ?_, ?_, ?_, ?_, ?_, ?_⟩
  · intro r
    by_cases h : r.status = ReportStatus.pending
    · right
      simp [ReportGenerator.beginGeneration, h]
      exact ReportGenerator.ReportStep.start
    · left
      simp [ReportGenerator.beginGeneration, h]
  · intro r res
    by_cases h : r.status = ReportStatus.generating
    · right
      cases res with
      | ok p =>
        simp [ReportGenerator.completeGeneration, h]
        exact ReportGenerator.ReportStep.finishOk
      | error c =>
        simp [ReportGenerator.completeGeneration, h]
        exact ReportGenerator.ReportStep.finishErr
    · left
      simp [ReportGenerator.completeGeneration, h]
  · intro s1 s2 h
    cases h <;> decide
  · intro s1 s2 h
    cases h <;> exact ⟨by decide, by decide⟩
  · intro s h
    rcases h.cases_head with h2 | ⟨c, hc, _⟩
    · exact h2.symm
    · cases hc
  · intro s h
    rcases h.cases_head with h2 | ⟨c, hc, _⟩
    · exact h2.symm
    · cases hc
  · intro s h
    rcases h.cases_head with h2 | ⟨c, hc, hrest⟩
    · exact Or.inl h2.symm
    · cases hc
      exact Or.inr hrest

/-- Closed instances of the lifecycle theorem: the step out of pending does
not re-enter pending, an empty execution from ready stays at ready, and an
empty execution from pending has not left pending. -/
theorem report_status_lifecycle_check :
    ReportStatus.generating ≠ ReportStatus.pending ∧
    ReportStatus.ready = ReportStatus.ready ∧
    (ReportStatus.pending = ReportStatus.pending ∨
      Relation.ReflTransGen ReportGenerator.ReportStep ReportStatus.generating
        ReportStatus.pending) :=
  ⟨report_status_lifecycle.2.2.1 ReportStatus.pending ReportStatus.generating
      ReportGenerator.ReportStep.start,
   report_status_lifecycle.2.2.2.2.1 ReportStatus.ready Relation.ReflTransGen.refl,
   report_status_lifecycle.2.2.2.2.2.2 ReportStatus.pending Relation.ReflTransGen.refl⟩

/-- Risk band, from the `UserAnalytics` interface of the implementation guide
(`riskLevel: low | medium | high`). -/
inductive RiskLevel
  | low
  | medium
  | high
deriving DecidableEq, Repr

namespace RiskClassifier

/-- Modelled from the spec: the RiskClassifier configuration (§4.2): three
weights summing to 1, the inactivity threshold in days, and the two cut
points of the band mapping. -/
structure RiskConfig where
  w1 : ℚ
  w2 : ℚ
  w3 : ℚ
  inactivityThresholdDays : ℚ
  lowCut : ℚ
  mediumCut : ℚ
deriving DecidableEq, Repr

/-- Modelled from the spec: the documented defaults of §4.2 — equal weights,
a 30-day inactivity threshold and cut points 0.33 and 0.66. -/
def defaultRiskConfig : RiskConfig :=
  ⟨1 / 3, 1 / 3, 1 / 3, 30, 33 / 100, 66 / 100⟩

/-- The aggregated signals of one user (§4.2): days since last login (`none`
when the user never logged in, treated as maximal), their completion rate,
the average rating they have given (`none` when they rated nothing) and how
many enrollments they hold. -/
structure UserSignals where
  daysSinceLastLogin : Option ℚ
  completionRate : ℚ
  averageRatingGiven : Option ℚ
  enrollmentCount : Nat
deriving DecidableEq, Repr

/-- Modelled from the spec: the inactivity score saturates at 1 past the
configured threshold and rises linearly before it; a user who never logged in
is maximally inactive (§4.2). -/
def inactivityScore (cfg : RiskConfig) (daysSince : Option ℚ) : ℚ :=
  match daysSince with
  | none => 1
  | some d => if cfg.inactivityThresholdDays ≤ d then 1 else d / cfg.inactivityThresholdDays

/-- Modelled from the spec: a rating in [1, 5] normalised into [0, 1]; a user
who has given no rating contributes maximal risk on this axis, consistent
with favouring false positives over missed at-risk users (§4.2). -/
def normalizedRating (avgRating : Option ℚ) : ℚ :=
  match avgRating with
  | none => 0
  | some r => (r - 1) / 4

/-- Modelled from the spec: the composite score
w1·inactivityScore + w2·(1 − completionRate) + w3·(1 − normalizedRatingGiven)
of §4.2. -/
def compositeScore (cfg : RiskConfig) (sig : UserSignals) : ℚ :=
  cfg.w1 * inactivityScore cfg sig.daysSinceLastLogin +
    cfg.w2 * (1 - sig.completionRate) +
    cfg.w3 * (1 - normalizedRating sig.averageRatingGiven)

/-- Modelled from the spec: the band mapping of §4.2 — below the first cut
low, below the second cut medium, else high; a score equal to a cut point
lands in the higher-risk band. -/
def band (cfg : RiskConfig) (score : ℚ) : RiskLevel :=
  if score < cfg.lowCut then RiskLevel.low
  else if score < cfg.mediumCut then RiskLevel.medium
  else RiskLevel.high

/-- Modelled from the spec: users with no enrollments are excluded from
classification, not defaulted to any band (§4.2). -/
def classify (cfg : RiskConfig) (sig : UserSignals) : Option RiskLevel :=
  if sig.enrollmentCount = 0 then none
  else some (band cfg (compositeScore cfg sig))

end RiskClassifier

/-- C7: the classifier maps every user holding at least one enrollment to the
band of the composite score w1·inactivityScore + w2·(1 − completionRate) +
w3·(1 − normalizedRatingGiven); the inactivity score saturates at 1 past the
threshold and rises linearly below it; a score tying a cut point resolves to
the higher-risk band; users without enrollments are not classified; and under
the default configuration a user whose last login is 40 days past, with
completionRate 0.1 and no ratings given, classifies as high. -/
theorem risk_classifier_policy :
    (∀ cfg sig, sig.enrollmentCount ≠ 0 →
      RiskClassifier.classify cfg sig = some (RiskClassifier.band cfg
        (cfg.w1 * RiskClassifier.inactivityScore cfg sig.daysSinceLastLogin +
          cfg.w2 * (1 - sig.completionRate) +
          cfg.w3 * (1 - RiskClassifier.normalizedRating sig.averageRatingGiven)))) ∧
    (∀ cfg sig, sig.enrollmentCount = 0 → RiskClassifier.classify cfg sig = none) ∧
    (∀ (cfg : RiskClassifier.RiskConfig) (d : ℚ), cfg.inactivityThresholdDays ≤ d →
      RiskClassifier.inactivityScore cfg (some d) = 1) ∧
    (∀ (cfg : RiskClassifier.RiskConfig) (d : ℚ), d < cfg.inactivityThresholdDays →
      RiskClassifier.inactivityScore cfg (some d) = d / cfg.inactivityThresholdDays) ∧
    (∀ cfg : RiskClassifier.RiskConfig, cfg.lowCut < cfg.mediumCut →
      RiskClassifier.band cfg cfg.lowCut = RiskLevel.medium) ∧
    (∀ cfg : RiskClassifier.RiskConfig, cfg.lowCut ≤ cfg.mediumCut →
      RiskClassifier.band cfg cfg.mediumCut = RiskLevel.high) ∧
    RiskClassifier.classify RiskClassifier.defaultRiskConfig
      ⟨some 40, 1 / 10, none, 1⟩ = some RiskLevel.high := by
  refine ⟨?_, ?_, ?_, ?_, ?_, ?_, ?_⟩
  · intro cfg sig h
    simp [RiskClassifier.classify, RiskClassifier.compositeScore, h]
  · intro cfg sig h
    simp [RiskClassifier.classify, h]
  · intro cfg d h
    simp [RiskClassifier.inactivityScore, h]
  · intro cfg d h
    simp [RiskClassifier.inactivityScore, not_le.mpr h]
  · intro cfg h
    simp [RiskClassifier.band, h]
  · intro cfg h
    simp [RiskClassifier.band, not_lt.mpr h]
  · norm_num [RiskClassifier.classify, RiskClassifier.band, RiskClassifier.compositeScore,
      RiskClassifier.inactivityScore, RiskClassifier.normalizedRating,
      RiskClassifier.defaultRiskConfig]

/-- Closed instances of the classifier-policy theorem: the inactivity score
saturates at 40 days under the 30-day default threshold, and a default-config
score equal to the second cut point lands in the high band. -/
theorem risk_classifier_policy_check :
    RiskClassifier.inactivityScore RiskClassifier.defaultRiskConfig (some 40) = 1 ∧
    RiskClassifier.band RiskClassifier.defaultRiskConfig
      RiskClassifier.defaultRiskConfig.mediumCut = RiskLevel.high :=
  ⟨risk_classifier_policy.2.2.1 RiskClassifier.defaultRiskConfig 40 (by norm_num
      [RiskClassifier.defaultRiskConfig]),
   risk_classifier_policy.2.2.2.2.2.1 RiskClassifier.defaultRiskConfig (by norm_num
      [RiskClassifier.defaultRiskConfig])⟩

namespace UpdateBroadcaster

/-- Modelled from the spec: a Subscription (§3 core-owned entities) carries a
subscriber id, the scope it watches and a slot holding at most one
undelivered snapshot. -/
structure Subscription where
  subscriberId : Nat
  scope : Scope
  pending : Option Snapshot
deriving DecidableEq, Repr

/-- Modelled from the spec: the registry of live subscribers (§4.5). -/
structure Broadcaster where
  subs : List Subscription
deriving DecidableEq, Repr

/-- Modelled from the spec: a newly arrived snapshot replaces whatever the
pending slot held (coalescing, §4.5). -/
def enqueue (snap : Snapshot) (sub : Subscription) : Subscription :=
  { sub with pending := some snap }

/-- Modelled from the spec: a successful recomputation for a scope enqueues
the new snapshot for every subscriber of that scope (§4.5). -/
def broadcast (sc : Scope) (snap : Snapshot) (b : Broadcaster) : Broadcaster :=
  ⟨b.subs.map fun sub => if sub.scope = sc then enqueue snap sub else sub⟩

/-- A delivery drains the pending slot of a subscriber, handing out whatever
single snapshot it held. -/
def deliver (sub : Subscription) : Option Snapshot × Subscription :=
  (sub.pending, { sub with pending := none })

/-- The number of undelivered snapshots a subscriber holds. -/
def pendingCount (sub : Subscription) : Nat :=
  sub.pending.toList.length

end UpdateBroadcaster

/-- C8: every subscriber holds at most one undelivered snapshot, and a
subscriber of a scope whose channel did not drain between two broadcasts for
that scope holds exactly the second snapshot — the first was replaced, never
queued behind. -/
theorem broadcaster_coalesces (b : UpdateBroadcaster.Broadcaster) (sc : Scope)
    (s1 s2 : Snapshot) (sub : UpdateBroadcaster.Subscription)
    (hmem : sub ∈ (UpdateBroadcaster.broadcast sc s2
      (UpdateBroadcaster.broadcast sc s1 b)).subs) :
    UpdateBroadcaster.pendingCount sub ≤ 1 ∧
    (sub.scope = sc → sub.pending = some s2 ∧
      (UpdateBroadcaster.deliver sub).1 = some s2) := by
  constructor
  · cases h : sub.pending <;> simp [UpdateBroadcaster.pendingCount, h]
  · intro hsc
    simp only [UpdateBroadcaster.broadcast, List.mem_map] at hmem
    obtain ⟨a, _, rfl⟩ := hmem
    by_cases h : a.scope = sc
    · simp [h, UpdateBroadcaster.enqueue, UpdateBroadcaster.deliver]
    · rw [if_neg h] at hsc ⊢
      exact absurd hsc h

/-- Closed instance of the coalescing theorem: a single global subscriber hit
by two successive broadcasts holds only the second snapshot. -/
theorem broadcaster_coalesces_check :
    UpdateBroadcaster.pendingCount
      ⟨1, Scope.global, some (MetricsAggregator.aggregate Scope.global emptyStore)⟩ ≤ 1 ∧
    ((⟨1, Scope.global, some (MetricsAggregator.aggregate Scope.global emptyStore)⟩ :
        UpdateBroadcaster.Subscription).scope = Scope.global →
      (⟨1, Scope.global, some (MetricsAggregator.aggregate Scope.global emptyStore)⟩ :
        UpdateBroadcaster.Subscription).pending =
        some (MetricsAggregator.aggregate Scope.global emptyStore) ∧
      (UpdateBroadcaster.deliver
        ⟨1, Scope.global, some (MetricsAggregator.aggregate Scope.global emptyStore)⟩).1 =
        some (MetricsAggregator.aggregate Scope.global emptyStore)) :=
  broadcaster_coalesces ⟨[⟨1, Scope.global, none⟩]⟩ Scope.global
    (MetricsAggregator.aggregate (Scope.course 7) tenEnrollmentStore)
    (MetricsAggregator.aggregate Scope.global emptyStore)
    ⟨1, Scope.global, some (MetricsAggregator.aggregate Scope.global emptyStore)⟩
    (by simp [UpdateBroadcaster.broadcast, UpdateBroadcaster.enqueue])

namespace Schema

/-- Translated from the SQL schema: the `users` table declares `id` as
primary key. -/
def usersValid (st : Store) : Prop :=
  (st.users.map fun u => u.id).Nodup

/-- Translated from the SQL schema: the `courses` table declares `id` as
primary key and `instructor_id` as a foreign key into `users`. -/
def coursesValid (st : Store) : Prop :=
  (st.courses.map fun c => c.id).Nodup ∧
  ∀ c ∈ st.courses, ∃ u ∈ st.users, u.id = c.instructorId

/-- Translated from the SQL schema: the `enrollments` table declares `id` as
primary key and foreign keys `user_id` into `users` and `course_id` into
`courses`; it declares no other constraint. -/
def enrollmentsValid (st : Store) : Prop :=
  (st.enrollments.map fun e => e.id).Nodup ∧
  ∀ e ∈ st.enrollments,
    (∃ u ∈ st.users, u.id = e.userId) ∧ ∃ c ∈ st.courses, c.id = e.courseId

/-- Translated from the SQL schema: the `modules` table declares `id` as
primary key and a foreign key `course_id` into `courses`. -/
def modulesValid (st : Store) : Prop :=
  (st.modules.map fun m => m.id).Nodup ∧
  ∀ m ∈ st.modules, ∃ c ∈ st.courses, c.id = m.courseId

/-- Translated from the SQL schema: the `user_module_progress` table declares
`id` as primary key, foreign keys into `users` and `modules`, and
`UNIQUE(user_id, module_id)`. -/
def progressesValid (st : Store) : Prop :=
  (st.progresses.map fun p => p.id).Nodup ∧
  (∀ p ∈ st.progresses,
    (∃ u ∈ st.users, u.id = p.userId) ∧ ∃ m ∈ st.modules, m.id = p.moduleId) ∧
  (st.progresses.map fun p => (p.userId, p.moduleId)).Nodup

/-- Whether a feedback target references an existing row of its table. -/
def feedbackTargetOk (st : Store) (t : FeedbackTarget) : Bool :=
  match t with
  | FeedbackTarget.course c => st.courses.any fun co => co.id == c
  | FeedbackTarget.module m => st.modules.any fun mo => mo.id == m

/-- Translated from the SQL schema: both feedback tables declare `id` as
primary key, foreign keys into `users` and into the target table, and
`CHECK (rating >= 1 AND rating <= 5)`. -/
def feedbacksValid (st : Store) : Prop :=
  (st.feedbacks.map fun f => f.id).Nodup ∧
  ∀ f ∈ st.feedbacks,
    (∃ u ∈ st.users, u.id = f.userId) ∧
    feedbackTargetOk st f.target = true ∧
    1 ≤ f.rating ∧ f.rating ≤ 5

/-- A store state reachable under the SQL schema: one satisfying every
constraint the schema declares. -/
def storeValid (st : Store) : Prop :=
  usersValid st ∧ coursesValid st ∧ enrollmentsValid st ∧ modulesValid st ∧
    progressesValid st ∧ feedbacksValid st

/-- The property claimed of the entity store: at most one Enrollment record
per (userId, courseId) pair. -/
def atMostOneEnrollmentPerPair (st : Store) : Prop :=
  (st.enrollments.map fun e => (e.userId, e.courseId)).Nodup

instance (st : Store) : Decidable (usersValid st) := by
  unfold usersValid
  infer_instance

instance (st : Store) : Decidable (coursesValid st) := by
  unfold coursesValid
  infer_instance

instance (st : Store) : Decidable (enrollmentsValid st) := by
  unfold enrollmentsValid
  infer_instance

instance (st : Store) : Decidable (modulesValid st) := by
  unfold modulesValid
  infer_instance

instance (st : Store) : Decidable (progressesValid st) := by
  unfold progressesValid
  infer_instance

instance (st : Store) : Decidable (feedbacksValid st) := by
  unfold feedbacksValid
  infer_instance

instance (st : Store) : Decidable (storeValid st) := by
  unfold storeValid
  infer_instance

instance (st : Store) : Decidable (atMostOneEnrollmentPerPair st) := by
  unfold atMostOneEnrollmentPerPair
  infer_instance

end Schema

/-- A store satisfying every declared schema constraint in which one user is
enrolled twice in the same course. -/
def dupEnrollmentStore : Store where
  users := [⟨100, Role.student, none, true⟩, ⟨1, Role.instructor, none, true⟩]
  courses := [⟨7, 1, CourseStatus.active, 0⟩]
  enrollments :=
    [⟨0, 100, 7, 0, none, 0, EnrollmentStatus.active⟩,
     ⟨1, 100, 7, 5, none, 0, EnrollmentStatus.active⟩]
  modules := []
  progresses := []
  feedbacks := []

/-- C9 as stated fails on the schema of src/technical_implementation_guide.md:
the `enrollments` table has no uniqueness constraint on (user_id, course_id),
so a store satisfying every declared constraint can hold two Enrollment
records for the same (userId, courseId) pair. -/
theorem enrollment_pair_unique_cex :
    Schema.storeValid dupEnrollmentStore ∧
    ¬ Schema.atMostOneEnrollmentPerPair dupEnrollmentStore := by
  constructor <;> decide

/-- C9 amended: in every store state satisfying the declared schema
constraints, Enrollment ids are unique (the primary key) and there is at most
one ModuleProgress per (userId, moduleId) (the UNIQUE constraint); uniqueness
of Enrollment (userId, courseId) pairs is not enforced by the schema. -/
theorem schema_enforced_uniqueness (st : Store) (h : Schema.storeValid st) :
    (st.enrollments.map fun e => e.id).Nodup ∧
    (st.progresses.map fun p => (p.userId, p.moduleId)).Nodup := by
  obtain ⟨-, -, ⟨hid, -⟩, -, ⟨-, -, hpair⟩, -⟩ := h
  exact ⟨hid, hpair⟩

/-- Closed instance of the amended uniqueness theorem at the duplicate-pair
store: its Enrollment ids are nevertheless unique. -/
theorem schema_enforced_uniqueness_check :
    (dupEnrollmentStore.enrollments.map fun e => e.id).Nodup ∧
    (dupEnrollmentStore.progresses.map fun p => (p.userId, p.moduleId)).Nodup :=
  schema_enforced_uniqueness dupEnrollmentStore (by decide)

namespace AIService

/-- Translated from src/ai-service.js: `generateFromPrompt(prompt)` returns
the fixed Danish marker string concatenated with the prompt; despite the
comment announcing an OpenAI integration, the body performs no call and reads
no state. -/
def generateFromPrompt (prompt : String) : String :=
  "Genereret kode baseret på: " ++ prompt

end AIService

/-- C10: generateFromPrompt resolves to exactly the marker string followed by
the prompt, and is deterministic — equal prompts yield equal results; in this
embedding it is a pure function of the prompt alone, with no external service
or hidden state influencing the output. -/
theorem generateFromPrompt_pure :
    (∀ p, AIService.generateFromPrompt p = "Genereret kode baseret på: " ++ p) ∧
    (∀ p q, p = q → AIService.generateFromPrompt p = AIService.generateFromPrompt q) :=
  ⟨fun _ => rfl, fun _ _ h => congrArg AIService.generateFromPrompt h⟩

/-- Closed instance of the purity theorem: two calls on the same prompt agree. -/
theorem generateFromPrompt_pure_check :
    AIService.generateFromPrompt ("tegn en kat") =
      AIService.generateFromPrompt ("tegn en kat") :=
  generateFromPrompt_pure.2 ("tegn en kat") ("tegn en kat") rfl

end Dashboard
